import Mathlib

/-!
Formal model (shallow embedding) of `src/extract_genarator.py`: a script that
generates fake e-commerce data (customers, products, orders), saves the three
tables to CSV files in a local directory, and uploads those files to a Google
Cloud Storage bucket.

Modeling conventions:
* randomness (the `random` module and the `faker` library) is an explicit
  oracle: a structure of streams, one stream per call site, indexed by the
  loop counter; `random.choice(lst)` with oracle value `k` picks
  `lst[k % len(lst)]` and `random.randint(a, b)` with oracle value `k` yields
  `a + k % (b - a + 1)`, which ranges over exactly the values the Python
  call can return;
* Python floats are modeled as rationals, `round(x, 2)` as rounding
  `x * 100` to the nearest integer and dividing by `100`;
* a Python `dict` with string keys is an insertion-ordered association list
  (later insertion of an existing key overwrites in place);
* the local filesystem directory is an association list from filename to
  file content, a write being an insert-or-overwrite.
-/

namespace ExtractGenarator

/-- Python `str(n)` for a natural number `n`: decimal digits, most significant
first, no leading zeros, and `"0"` for zero.  Built from Mathlib's
little-endian `Nat.digits`. -/
def pyNatStr (n : ℕ) : String :=
  if n = 0 then "0" else String.mk (((Nat.digits 10 n).map Nat.digitChar).reverse)

/-- Python `str.zfill(width)` restricted to unsigned digit strings (the only
use in the script): left-pad with the character `0` up to `width`. -/
def zfill (width : ℕ) (s : String) : String :=
  if width ≤ s.length then s
  else String.mk (List.replicate (width - s.length) '0' ++ s.data)

/-- The sequential id strings of the script: `f"CUST{str(i+1).zfill(5)}"`,
`f"PROD{str(i+1).zfill(5)}"`, `f"ORD{str(i+1).zfill(7)}"`. -/
def idStr (tag : String) (width n : ℕ) : String :=
  tag ++ zfill width (pyNatStr n)

lemma digitChar_inj {a b : ℕ} (ha : a < 10) (hb : b < 10)
    (h : Nat.digitChar a = Nat.digitChar b) : a = b := by
  interval_cases a <;> interval_cases b <;> revert h <;> decide

lemma digitChar_ne_zero_char {d : ℕ} (hd : d < 10) (h0 : d ≠ 0) :
    Nat.digitChar d ≠ '0' := by
  interval_cases d <;> revert h0 <;> decide

lemma map_digitChar_inj : ∀ {l₁ l₂ : List ℕ}, (∀ d ∈ l₁, d < 10) →
    (∀ d ∈ l₂, d < 10) → l₁.map Nat.digitChar = l₂.map Nat.digitChar → l₁ = l₂ := by
  intro l₁
  induction l₁ with
  | nil => intro l₂ _ _ h; cases l₂ <;> simp_all
  | cons a t ih =>
    intro l₂ h₁ h₂ h
    cases l₂ with
    | nil => simp_all
    | cons b t₂ =>
      simp only [List.map_cons, List.cons.injEq] at h
      have hab : a = b :=
        digitChar_inj (h₁ a (by simp)) (h₂ b (by simp)) h.1
      have ht : t = t₂ :=
        ih (fun d hd => h₁ d (by simp [hd])) (fun d hd => h₂ d (by simp [hd])) h.2
      simp [hab, ht]

lemma pyNatStr_head_ne_zero_char {n : ℕ} (hn : n ≠ 0) {c : Char}
    (hc : (pyNatStr n).data.head? = some c) : c ≠ '0' := by
  unfold pyNatStr at hc
  rw [if_neg hn] at hc
  simp only [String.data, List.head?_reverse] at hc
  rw [List.getLast?_map] at hc
  have hne : Nat.digits 10 n ≠ [] := Nat.digits_ne_nil_iff_ne_zero.mpr hn
  rw [List.getLast?_eq_getLast _ hne] at hc
  simp only [Option.map_some', Option.some.injEq] at hc
  subst hc
  exact digitChar_ne_zero_char
    (Nat.digits_lt_base (by norm_num) (List.getLast_mem hne))
    (Nat.getLast_digit_ne_zero 10 hn)

lemma pyNatStr_ne_zero_str {m : ℕ} (hm : m ≠ 0) : pyNatStr m ≠ "0" := by
  intro h
  have hh : (pyNatStr m).data.head? = some '0' := by rw [h]; rfl
  exact pyNatStr_head_ne_zero_char hm hh rfl

lemma pyNatStr_inj : Function.Injective pyNatStr := by
  intro m n h
  by_cases hm : m = 0 <;> by_cases hn : n = 0
  · omega
  · exfalso
    rw [hm] at h
    exact pyNatStr_ne_zero_str hn (h.symm.trans (by simp [pyNatStr]))
  · exfalso
    rw [hn] at h
    exact pyNatStr_ne_zero_str hm (h.trans (by simp [pyNatStr]))
  · have hdata := congrArg String.data h
    unfold pyNatStr at hdata
    rw [if_neg hm, if_neg hn] at hdata
    simp only [String.data] at hdata
    have hmap := List.reverse_injective hdata
    have hdig : Nat.digits 10 m = Nat.digits 10 n :=
      map_digitChar_inj (fun d hd => Nat.digits_lt_base (by norm_num) hd)
        (fun d hd => Nat.digits_lt_base (by norm_num) hd) hmap
    have hof := congrArg (Nat.ofDigits 10) hdig
    rw [Nat.ofDigits_digits, Nat.ofDigits_digits] at hof
    exact_mod_cast hof

lemma zfill_data (w : ℕ) (s : String) :
    (zfill w s).data = List.replicate (w - s.length) '0' ++ s.data := by
  unfold zfill
  split
  · simp [Nat.sub_eq_zero_of_le ‹_›]
  · rfl

lemma replicate_zero_append_inj : ∀ (a b : ℕ) (l₁ l₂ : List Char),
    (∀ c, l₁.head? = some c → c ≠ '0') → (∀ c, l₂.head? = some c → c ≠ '0') →
    List.replicate a '0' ++ l₁ = List.replicate b '0' ++ l₂ → l₁ = l₂ := by
  intro a
  induction a with
  | zero =>
    intro b l₁ l₂ h₁ _ h
    cases b with
    | zero => simpa using h
    | succ b =>
      exfalso
      simp only [List.replicate_succ, List.replicate, List.nil_append,
        List.cons_append] at h
      have : l₁.head? = some '0' := by rw [h]; rfl
      exact h₁ '0' this rfl
  | succ a ih =>
    intro b l₁ l₂ h₁ h₂ h
    cases b with
    | zero =>
      exfalso
      simp only [List.replicate_succ, List.replicate, List.nil_append,
        List.cons_append] at h
      have : l₂.head? = some '0' := by rw [← h]; rfl
      exact h₂ '0' this rfl
    | succ b =>
      simp only [List.replicate_succ, List.cons_append, List.cons.injEq] at h
      exact ih b l₁ l₂ h₁ h₂ h.2

lemma zfill_pyNatStr_inj {w m n : ℕ} (hm : m ≠ 0) (hn : n ≠ 0)
    (h : zfill w (pyNatStr m) = zfill w (pyNatStr n)) : m = n := by
  have hdata := congrArg String.data h
  rw [zfill_data, zfill_data] at hdata
  have := replicate_zero_append_inj _ _ _ _
    (fun c hc => pyNatStr_head_ne_zero_char hm hc)
    (fun c hc => pyNatStr_head_ne_zero_char hn hc) hdata
  exact pyNatStr_inj (String.ext this)

lemma string_append_left_cancel {t s₁ s₂ : String} (h : t ++ s₁ = t ++ s₂) :
    s₁ = s₂ := by
  have hd := congrArg String.data h
  rw [String.data_append, String.data_append] at hd
  exact String.ext (List.append_cancel_left hd)

lemma idStr_inj {tag : String} {w m n : ℕ} (hm : m ≠ 0) (hn : n ≠ 0)
    (h : idStr tag w m = idStr tag w n) : m = n :=
  zfill_pyNatStr_inj hm hn (string_append_left_cancel h)

/-! ### Python dict, random choice, and 2-decimal rounding -/

/-- Inserting a key into a Python dict: an existing key is overwritten in
place, a new key is appended at the end (Python 3.7+ insertion order). -/
def pyDictInsert {β : Type} : List (String × β) → String → β → List (String × β)
  | [], k, v => [(k, v)]
  | (k₀, v₀) :: rest, k, v =>
    if k₀ = k then (k, v) :: rest else (k₀, v₀) :: pyDictInsert rest k v

/-- A Python dict built from a sequence of key-value pairs (as
`pandas.Series.to_dict` builds one from an indexed column: for duplicate
keys the last value wins). -/
def pyDict {β : Type} (l : List (String × β)) : List (String × β) :=
  l.foldl (fun d kv => pyDictInsert d kv.1 kv.2) []

/-- Python `d[k]` and `d.get(k)` lookups, as an option. -/
def pyDictLookup {β : Type} : List (String × β) → String → Option β
  | [], _ => none
  | (k₀, v) :: rest, k => if k₀ = k then some v else pyDictLookup rest k

/-- Python `list(d.keys())`. -/
def pyDictKeys {β : Type} (d : List (String × β)) : List String := d.map Prod.fst

/-- Python `random.choice(l)` with oracle value `k`: an arbitrary element of
`l` (the oracle decides which); on an empty list Python raises, the model
returns the default. -/
def pyChoice {α : Type} [Inhabited α] (l : List α) (k : ℕ) : α :=
  l.getD (k % l.length) default

/-- Python `random.randint(a, b)` (both endpoints included) with oracle
value `k`. -/
def pyRandint (a b k : ℕ) : ℕ := a + k % (b - a + 1)

/-- Python `round(x, 2)`: round `x * 100` to the nearest integer and divide
by `100` (the tie-breaking rule is irrelevant to every claim below). -/
def pyRound2 (q : ℚ) : ℚ := ((round (q * 100) : ℤ) : ℚ) / 100

/-! ### The data model: the three generated tables -/

/-- One row of the customer table (all faker-produced fields are strings). -/
structure Customer where
  customer_id : String
  name : String
  email : String
  address : String
  city : String
  state : String
  zip_code : String
  country : String
  registration_date : String
deriving DecidableEq, Inhabited

/-- One row of the product table. -/
structure Product where
  product_id : String
  product_name : String
  category : String
  price : ℚ
  stock_quantity : ℕ
deriving DecidableEq, Inhabited

/-- One row of the order table. -/
structure Order where
  order_id : String
  customer_id : String
  product_id : String
  quantity : ℕ
  unit_price_at_order : ℚ
  amount : ℚ
  transaction_id : String
  transaction_type : String
  order_date : String
  shipping_address : String
  order_status : String
  location : String
deriving DecidableEq, Inhabited

/-- The randomness oracle: one stream per random/faker call site of
`generate_fake_data`, indexed by the loop counter. -/
structure FakerOracle where
  fullName : ℕ → String
  email : ℕ → String
  streetAddress : ℕ → String
  city : ℕ → String
  stateAbbr : ℕ → String
  postcode : ℕ → String
  country : ℕ → String
  registrationDate : ℕ → String
  productWord : ℕ → String
  nounChoice : ℕ → ℕ
  categoryChoice : ℕ → ℕ
  priceUniform : ℕ → ℚ
  stockRand : ℕ → ℕ
  custChoice : ℕ → ℕ
  prodChoice : ℕ → ℕ
  quantityRand : ℕ → ℕ
  uuid : ℕ → String
  txnChoice : ℕ → ℕ
  orderDate : ℕ → String
  shippingAddress : ℕ → String
  statusChoice : ℕ → ℕ
  fallbackCity : ℕ → String

/-! ### Module-level configuration constants of the script -/

def NUM_CUSTOMERS : ℕ := 100

def NUM_PRODUCTS : ℕ := 50

def NUM_ORDERS : ℕ := 1000

def GCS_BUCKET_NAME : String := "repo-prod-raw-stg"

def GCS_PROJECT_ID : String := "pro-env-test"

/-- The script sets `GCS_SERVICE_ACCOUNT_KEY_PATH = "None"`: the Python value
is the *string* `"None"`, not the `None` object, so the model is
`some "None"` (an `Option String` models Python's `Optional[str]`). -/
def GCS_SERVICE_ACCOUNT_KEY_PATH : Option String := some "None"

def DATA_DIR : String := "fake_ecommerce_data"

/-! ### The generator -/

/-- Python `str.capitalize()`: first character uppercased, the rest
lowercased. -/
def pyCapitalize (s : String) : String :=
  match s.data with
  | [] => ""
  | c :: rest => String.mk (c.toUpper :: rest.map Char.toLower)

def productCategories : List String :=
  ["Electronics", "Books", "Home & Kitchen", "Apparel", "Sports & Outdoors", "Toys", "Beauty"]

def productNameNouns : List String :=
  ["Gadget", "Book", "Supply", "Tool", "Accessory"]

def transactionTypes : List String :=
  ["credit_card", "debit_card", "paypal", "bank_transfer"]

def orderStatuses : List String :=
  ["pending", "completed", "shipped", "cancelled"]

/-- Step 1 of `generate_fake_data`: the customer table.  The count is the
module constant `NUM_CUSTOMERS` in the script; it is a parameter here (the
spec calls the counts configurable inputs). -/
def genCustomers (o : FakerOracle) (numCustomers : ℕ) : List Customer :=
  (List.range numCustomers).map fun i =>
    { customer_id := idStr "CUST" 5 (i + 1)
      name := o.fullName i
      email := o.email i
      address := o.streetAddress i
      city := o.city i
      state := o.stateAbbr i
      zip_code := o.postcode i
      country := o.country i
      registration_date := o.registrationDate i }

/-- Step 2 of `generate_fake_data`: the product table. -/
def genProducts (o : FakerOracle) (numProducts : ℕ) : List Product :=
  (List.range numProducts).map fun i =>
    { product_id := idStr "PROD" 5 (i + 1)
      product_name :=
        pyCapitalize (o.productWord i) ++ " " ++ pyChoice productNameNouns (o.nounChoice i)
      category := pyChoice productCategories (o.categoryChoice i)
      price := pyRound2 (o.priceUniform i)
      stock_quantity := pyRandint 0 1000 (o.stockRand i) }

/-- Line 66 of the script: `customers_df['customer_id'].tolist()`. -/
def customerIdList (customers : List Customer) : List String :=
  customers.map fun c => c.customer_id

/-- Line 67 of the script:
`products_df.set_index('product_id')['price'].to_dict()`. -/
def productDetails (products : List Product) : List (String × ℚ) :=
  pyDict (products.map fun p => (p.product_id, p.price))

/-- Line 68 of the script:
`customers_df.set_index('customer_id')['city'].to_dict()`. -/
def customerLocations (customers : List Customer) : List (String × String) :=
  pyDict (customers.map fun c => (c.customer_id, c.city))

/-- The body of the order loop of `generate_fake_data`, at loop index `i`:
sample a customer id and a product id from the completed tables, then compute
the derived fields from the lookups. -/
def orderAt (o : FakerOracle) (customers : List Customer)
    (products : List Product) (i : ℕ) : Order :=
  let customer_ids := customerIdList customers
  let product_details := productDetails products
  let customer_locations := customerLocations customers
  let customer_id := pyChoice customer_ids (o.custChoice i)
  let product_id := pyChoice (pyDictKeys product_details) (o.prodChoice i)
  let quantity := pyRandint 1 5 (o.quantityRand i)
  let product_price := (pyDictLookup product_details product_id).getD 0
  let amount := pyRound2 (product_price * (quantity : ℚ))
  { order_id := idStr "ORD" 7 (i + 1)
    customer_id := customer_id
    product_id := product_id
    quantity := quantity
    unit_price_at_order := product_price
    amount := amount
    transaction_id := o.uuid i
    transaction_type := pyChoice transactionTypes (o.txnChoice i)
    order_date := o.orderDate i
    shipping_address := o.shippingAddress i
    order_status := pyChoice orderStatuses (o.statusChoice i)
    location :=
      match pyDictLookup customer_locations customer_id with
      | some c => c
      | none => o.fallbackCity i }

/-- Step 3 of `generate_fake_data`: the order table. -/
def genOrders (o : FakerOracle) (numOrders : ℕ) (customers : List Customer)
    (products : List Product) : List Order :=
  (List.range numOrders).map (orderAt o customers products)

/-- The three tables returned by `generate_fake_data`. -/
structure Tables where
  customers : List Customer
  products : List Product
  orders : List Order

/-- The function `generate_fake_data` of the script, with the three counts
as parameters (the script reads them from the module constants). -/
def generate_fake_data (o : FakerOracle) (numCustomers numProducts numOrders : ℕ) :
    Tables :=
  let customers := genCustomers o numCustomers
  let products := genProducts o numProducts
  let orders := genOrders o numOrders customers products
  ⟨customers, products, orders⟩

/-! ### The local exporter: `save_data_to_csv` -/

def customerFields : List String :=
  ["customer_id", "name", "email", "address", "city", "state", "zip_code",
   "country", "registration_date"]

def productFields : List String :=
  ["product_id", "product_name", "category", "price", "stock_quantity"]

def orderFields : List String :=
  ["order_id", "customer_id", "product_id", "quantity", "unit_price_at_order",
   "amount", "transaction_id", "transaction_type", "order_date",
   "shipping_address", "order_status", "location"]

def customerRecord (c : Customer) : List String :=
  [c.customer_id, c.name, c.email, c.address, c.city, c.state, c.zip_code,
   c.country, c.registration_date]

/-- A product row serialized cellwise; how pandas renders a float or an
integer cell is abstracted into the two renderers (the claims do not depend
on it). -/
def productRecord (renderRat : ℚ → String) (renderNat : ℕ → String)
    (p : Product) : List String :=
  [p.product_id, p.product_name, p.category, renderRat p.price,
   renderNat p.stock_quantity]

def orderRecord (renderRat : ℚ → String) (renderNat : ℕ → String)
    (a : Order) : List String :=
  [a.order_id, a.customer_id, a.product_id, renderNat a.quantity,
   renderRat a.unit_price_at_order, renderRat a.amount, a.transaction_id,
   a.transaction_type, a.order_date, a.shipping_address, a.order_status,
   a.location]

/-- pandas `df.to_csv(..., index=False)`: one header line holding the column
names, then one line per row, as lists of cells. -/
def customersCsv (customers : List Customer) : List (List String) :=
  customerFields :: customers.map customerRecord

def productsCsv (renderRat : ℚ → String) (renderNat : ℕ → String)
    (products : List Product) : List (List String) :=
  productFields :: products.map (productRecord renderRat renderNat)

def ordersCsv (renderRat : ℚ → String) (renderNat : ℕ → String)
    (orders : List Order) : List (List String) :=
  orderFields :: orders.map (orderRecord renderRat renderNat)

/-- The local target directory as filename → file content (lines of cells);
writing a file is an insert-or-overwrite. -/
abbrev FileSys := List (String × List (List String))

/-- The function `save_data_to_csv` of the script: writes the three named
CSV files into the directory, overwriting files of the same name. -/
def save_data_to_csv (renderRat : ℚ → String) (renderNat : ℕ → String)
    (fs : FileSys) (customers : List Customer) (products : List Product)
    (orders : List Order) : FileSys :=
  let fs1 := pyDictInsert fs "customers.csv" (customersCsv customers)
  let fs2 := pyDictInsert fs1 "products.csv" (productsCsv renderRat renderNat products)
  pyDictInsert fs2 "orders.csv" (ordersCsv renderRat renderNat orders)

/-! ### The remote publisher: `upload_to_gcs` and the top-level `genarator` -/

/-- How `upload_to_gcs` constructs its storage client. -/
inductive AuthMethod where
  | serviceAccountFile (path : String)
  | applicationDefault
deriving DecidableEq

/-- Python truthiness of an `Optional[str]` value: `None` and the empty
string are falsy, any other string is truthy. -/
def pyTruthyOptStr : Option String → Bool
  | none => false
  | some s => !s.isEmpty

/-- Lines 112-123 of the script: `if service_account_key_path:` picks the
service-account branch, `else` the Application Default Credentials branch. -/
def authMethod : Option String → AuthMethod
  | none => AuthMethod.applicationDefault
  | some p =>
    if p.isEmpty then AuthMethod.applicationDefault
    else AuthMethod.serviceAccountFile p

/-- The authentication branch the top-level `genarator` call of the script
reaches, passing the module constant as `service_account_key_path`. -/
def genaratorAuthMethod : AuthMethod :=
  authMethod GCS_SERVICE_ACCOUNT_KEY_PATH

/-- The two lines the `except` block of `genarator` prints about a failed
upload. -/
def uploadErrorMessages (e : String) : List String :=
  ["An error occurred during GCS upload. Please ensure your bucket name, project ID, and authentication are correctly configured.",
   "Error: " ++ e]

/-- The control flow of the function `genarator` of the script.  Each step's
outcome is a parameter (generation, local saving and the upload are effectful;
which errors they raise is the environment's choice): an exception from
`generate_fake_data` or `save_data_to_csv` propagates, the `try/except` around
`upload_to_gcs` turns any upload exception into two printed lines and a normal
return.  The result is the run's outcome together with the lines the handler
printed. -/
def genarator (genResult : Except String Tables)
    (saveResult : Tables → Except String Unit)
    (uploadResult : Tables → Except String Unit) : Except String (List String) :=
  match genResult with
  | Except.error e => Except.error e
  | Except.ok tables =>
    match saveResult tables with
    | Except.error e => Except.error e
    | Except.ok _ =>
      match uploadResult tables with
      | Except.ok _ => Except.ok []
      | Except.error e => Except.ok (uploadErrorMessages e)

/-! ### Helper lemmas about the Python dict model -/

lemma pyDictInsert_not_mem {β : Type} {d : List (String × β)} {k : String} (v : β)
    (h : k ∉ pyDictKeys d) : pyDictInsert d k v = d ++ [(k, v)] := by
  induction d with
  | nil => rfl
  | cons kv rest ih =>
    obtain ⟨k₀, v₀⟩ := kv
    simp only [pyDictKeys, List.map_cons, List.mem_cons, not_or] at h
    unfold pyDictInsert
    rw [if_neg (Ne.symm h.1)]
    simp only [List.cons_append, List.cons.injEq, true_and]
    exact ih h.2

lemma pyDict_foldl_nodup {β : Type} :
    ∀ (l acc : List (String × β)), ((acc ++ l).map Prod.fst).Nodup →
      List.foldl (fun d kv => pyDictInsert d kv.1 kv.2) acc l = acc ++ l := by
  intro l
  induction l with
  | nil => intro acc _; simp
  | cons kv rest ih =>
    intro acc h
    obtain ⟨k, v⟩ := kv
    simp only [List.foldl_cons]
    have hsplit :=
      List.nodup_append.mp (by simpa only [List.map_append, List.map_cons] using h)
    have hk : k ∉ pyDictKeys acc := fun hmem =>
      hsplit.2.2 hmem (List.mem_cons_self _ _)
    rw [pyDictInsert_not_mem v hk]
    have h2 : (((acc ++ [(k, v)]) ++ rest).map Prod.fst).Nodup := by
      rw [List.append_assoc]
      simpa using h
    have := ih (acc ++ [(k, v)]) h2
    rw [this, List.append_assoc]
    rfl

lemma pyDict_eq_self {β : Type} {l : List (String × β)}
    (h : (l.map Prod.fst).Nodup) : pyDict l = l := by
  have := pyDict_foldl_nodup l [] (by simpa using h)
  simpa [pyDict] using this

lemma pyDictLookup_eq_some_of_mem {β : Type} :
    ∀ {l : List (String × β)} {k : String} {v : β},
      (l.map Prod.fst).Nodup → (k, v) ∈ l → pyDictLookup l k = some v := by
  intro l
  induction l with
  | nil => simp
  | cons kv rest ih =>
    intro k v h hm
    obtain ⟨k₀, v₀⟩ := kv
    simp only [List.map_cons, List.nodup_cons] at h
    rcases List.mem_cons.mp hm with heq | hrest
    · injection heq with hk hv
      unfold pyDictLookup
      rw [if_pos hk.symm, hv]
    · have hne : k₀ ≠ k := by
        intro hkk
        exact h.1 (hkk ▸ (List.mem_map.mpr ⟨(k, v), hrest, rfl⟩))
      unfold pyDictLookup
      rw [if_neg hne]
      exact ih h.2 hrest

lemma pyDictLookup_mem {β : Type} :
    ∀ {l : List (String × β)} {k : String} {v : β},
      pyDictLookup l k = some v → (k, v) ∈ l := by
  intro l
  induction l with
  | nil => simp [pyDictLookup]
  | cons kv rest ih =>
    intro k v h
    obtain ⟨k₀, v₀⟩ := kv
    unfold pyDictLookup at h
    by_cases hk : k₀ = k
    · rw [if_pos hk] at h
      obtain rfl := Option.some.inj h
      exact hk ▸ List.mem_cons_self _ _
    · rw [if_neg hk] at h
      exact List.mem_cons_of_mem _ (ih h)

lemma pyDictLookup_isSome_of_mem_keys {β : Type} :
    ∀ {l : List (String × β)} {k : String},
      k ∈ pyDictKeys l → (pyDictLookup l k).isSome = true := by
  intro l
  induction l with
  | nil => simp [pyDictKeys]
  | cons kv rest ih =>
    intro k h
    obtain ⟨k₀, v₀⟩ := kv
    unfold pyDictLookup
    by_cases hk : k₀ = k
    · rw [if_pos hk]; rfl
    · rw [if_neg hk]
      refine ih ?_
      simp only [pyDictKeys, List.map_cons, List.mem_cons] at h
      rcases h with h | h
      · exact absurd h.symm hk
      · exact h

lemma pyDictLookup_pyDictInsert_self {β : Type} (d : List (String × β))
    (k : String) (v : β) : pyDictLookup (pyDictInsert d k v) k = some v := by
  induction d with
  | nil => simp [pyDictInsert, pyDictLookup]
  | cons kv rest ih =>
    obtain ⟨k₀, v₀⟩ := kv
    unfold pyDictInsert
    by_cases hk : k₀ = k
    · rw [if_pos hk]
      simp [pyDictLookup]
    · rw [if_neg hk]
      unfold pyDictLookup
      rw [if_neg hk]
      exact ih

lemma pyDictLookup_pyDictInsert_ne {β : Type} (d : List (String × β))
    {k k₂ : String} (v : β) (h : k ≠ k₂) :
    pyDictLookup (pyDictInsert d k v) k₂ = pyDictLookup d k₂ := by
  induction d with
  | nil => simp [pyDictInsert, pyDictLookup, h]
  | cons kv rest ih =>
    obtain ⟨k₀, v₀⟩ := kv
    unfold pyDictInsert
    by_cases hk : k₀ = k
    · rw [if_pos hk]
      unfold pyDictLookup
      rw [if_neg h, if_neg (hk ▸ h)]
    · rw [if_neg hk]
      unfold pyDictLookup
      by_cases hk₂ : k₀ = k₂
      · rw [if_pos hk₂, if_pos hk₂]
      · rw [if_neg hk₂, if_neg hk₂]
        exact ih

lemma pyChoice_mem {α : Type} [Inhabited α] {l : List α} (h : l ≠ []) (k : ℕ) :
    pyChoice l k ∈ l := by
  unfold pyChoice
  have hlen : k % l.length < l.length := Nat.mod_lt _ (List.length_pos.mpr h)
  rw [List.getD_eq_getElem _ _ hlen]
  exact List.getElem_mem _

lemma getD_zero_mem {α : Type} [Inhabited α] {l : List α} (h : 0 < l.length) :
    l.getD 0 default ∈ l := by
  cases l with
  | nil => simp at h
  | cons a t => simp [List.getD]

/-! ### Helper lemmas about 2-decimal rounding -/

lemma pyRound2_bounds {q : ℚ} (h1 : 5 ≤ q) (h2 : q ≤ 500) :
    5 ≤ pyRound2 q ∧ pyRound2 q ≤ 500 := by
  unfold pyRound2
  rw [round_eq]
  constructor
  · rw [le_div_iff₀ (by norm_num : (0:ℚ) < 100)]
    have hfl : (500 : ℤ) ≤ ⌊q * 100 + 1/2⌋ := Int.le_floor.mpr (by push_cast; linarith)
    calc (5 : ℚ) * 100 = ((500 : ℤ) : ℚ) := by norm_num
      _ ≤ _ := by exact_mod_cast hfl
  · rw [div_le_iff₀ (by norm_num : (0:ℚ) < 100)]
    have hfl : ⌊q * 100 + 1/2⌋ < 50001 := Int.floor_lt.mpr (by push_cast; linarith)
    have hfl2 : ⌊q * 100 + 1/2⌋ ≤ 50000 := by omega
    calc ((⌊q * 100 + 1/2⌋ : ℤ) : ℚ) ≤ ((50000 : ℤ) : ℚ) := by exact_mod_cast hfl2
      _ = 500 * 100 := by norm_num

lemma pyRound2_two_decimals (q : ℚ) : ∃ z : ℤ, pyRound2 q * 100 = (z : ℚ) :=
  ⟨round (q * 100), by unfold pyRound2; field_simp⟩

/-! ### Uniqueness of the generated sequential ids -/

lemma genCustomers_ids_nodup (o : FakerOracle) (n : ℕ) :
    ((genCustomers o n).map (fun c => c.customer_id)).Nodup := by
  unfold genCustomers
  rw [List.map_map]
  refine List.Nodup.map ?_ (List.nodup_range _)
  intro i j h
  have h2 : idStr "CUST" 5 (i + 1) = idStr "CUST" 5 (j + 1) := h
  have := idStr_inj (Nat.succ_ne_zero i) (Nat.succ_ne_zero j) h2
  omega

lemma genProducts_ids_nodup (o : FakerOracle) (n : ℕ) :
    ((genProducts o n).map (fun p => p.product_id)).Nodup := by
  unfold genProducts
  rw [List.map_map]
  refine List.Nodup.map ?_ (List.nodup_range _)
  intro i j h
  have h2 : idStr "PROD" 5 (i + 1) = idStr "PROD" 5 (j + 1) := h
  have := idStr_inj (Nat.succ_ne_zero i) (Nat.succ_ne_zero j) h2
  omega

lemma productDetails_eq (o : FakerOracle) (n : ℕ) :
    productDetails (genProducts o n)
      = (genProducts o n).map (fun p => (p.product_id, p.price)) := by
  unfold productDetails
  refine pyDict_eq_self ?_
  rw [List.map_map]
  exact genProducts_ids_nodup o n

lemma customerLocations_eq (o : FakerOracle) (n : ℕ) :
    customerLocations (genCustomers o n)
      = (genCustomers o n).map (fun c => (c.customer_id, c.city)) := by
  unfold customerLocations
  refine pyDict_eq_self ?_
  rw [List.map_map]
  exact genCustomers_ids_nodup o n

lemma genCustomers_length (o : FakerOracle) (n : ℕ) :
    (genCustomers o n).length = n := by simp [genCustomers]

lemma genProducts_length (o : FakerOracle) (n : ℕ) :
    (genProducts o n).length = n := by simp [genProducts]

lemma genOrders_length (o : FakerOracle) (n : ℕ) (cs : List Customer)
    (ps : List Product) : (genOrders o n cs ps).length = n := by simp [genOrders]

/-! ### Projection lemmas for the generator -/

lemma generate_fake_data_customers (o : FakerOracle) (numC numP numO : ℕ) :
    (generate_fake_data o numC numP numO).customers = genCustomers o numC := rfl

lemma generate_fake_data_products (o : FakerOracle) (numC numP numO : ℕ) :
    (generate_fake_data o numC numP numO).products = genProducts o numP := rfl

lemma generate_fake_data_orders (o : FakerOracle) (numC numP numO : ℕ) :
    (generate_fake_data o numC numP numO).orders
      = genOrders o numO (genCustomers o numC) (genProducts o numP) := rfl

lemma orderAt_customer_id (o : FakerOracle) (cs : List Customer)
    (ps : List Product) (i : ℕ) :
    (orderAt o cs ps i).customer_id = pyChoice (customerIdList cs) (o.custChoice i) := rfl

lemma orderAt_product_id (o : FakerOracle) (cs : List Customer)
    (ps : List Product) (i : ℕ) :
    (orderAt o cs ps i).product_id
      = pyChoice (pyDictKeys (productDetails ps)) (o.prodChoice i) := rfl

lemma orderAt_quantity (o : FakerOracle) (cs : List Customer)
    (ps : List Product) (i : ℕ) :
    (orderAt o cs ps i).quantity = pyRandint 1 5 (o.quantityRand i) := rfl

lemma orderAt_unit_price (o : FakerOracle) (cs : List Customer)
    (ps : List Product) (i : ℕ) :
    (orderAt o cs ps i).unit_price_at_order
      = (pyDictLookup (productDetails ps) ((orderAt o cs ps i).product_id)).getD 0 := rfl

lemma orderAt_amount (o : FakerOracle) (cs : List Customer)
    (ps : List Product) (i : ℕ) :
    (orderAt o cs ps i).amount
      = pyRound2 ((orderAt o cs ps i).unit_price_at_order
          * ((orderAt o cs ps i).quantity : ℚ)) := rfl

lemma orderAt_location (o : FakerOracle) (cs : List Customer)
    (ps : List Product) (i : ℕ) :
    (orderAt o cs ps i).location
      = match pyDictLookup (customerLocations cs) ((orderAt o cs ps i).customer_id) with
        | some c => c
        | none => o.fallbackCity i := rfl

lemma mem_genOrders {o : FakerOracle} {n : ℕ} {cs : List Customer}
    {ps : List Product} {a : Order} :
    a ∈ genOrders o n cs ps ↔ ∃ i, i < n ∧ a = orderAt o cs ps i := by
  simp [genOrders, List.mem_map, List.mem_range, eq_comm]

lemma customerIdList_length (o : FakerOracle) (n : ℕ) :
    (customerIdList (genCustomers o n)).length = n := by
  simp [customerIdList, genCustomers]

lemma customerIdList_ne_nil {o : FakerOracle} {n : ℕ} (h : 0 < n) :
    customerIdList (genCustomers o n) ≠ [] := by
  intro hnil
  have := customerIdList_length o n
  rw [hnil] at this
  simp at this
  omega

lemma productDetails_keys (o : FakerOracle) (n : ℕ) :
    pyDictKeys (productDetails (genProducts o n))
      = (genProducts o n).map (fun p => p.product_id) := by
  rw [productDetails_eq]
  simp only [pyDictKeys, List.map_map]
  rfl

lemma customerLocations_keys (o : FakerOracle) (n : ℕ) :
    pyDictKeys (customerLocations (genCustomers o n))
      = customerIdList (genCustomers o n) := by
  rw [customerLocations_eq]
  simp only [pyDictKeys, List.map_map]
  rfl

/-- The concrete oracle used by the witnesses: every stream is constant. -/
def sampleOracle : FakerOracle where
  fullName := fun _ => "Ada Lovelace"
  email := fun _ => "ada@example.org"
  streetAddress := fun _ => "1 Analytical Way"
  city := fun _ => "London"
  stateAbbr := fun _ => "LN"
  postcode := fun _ => "12345"
  country := fun _ => "United Kingdom"
  registrationDate := fun _ => "2024-01-01 00:00:00"
  productWord := fun _ => "widget"
  nounChoice := fun _ => 0
  categoryChoice := fun _ => 0
  priceUniform := fun _ => 42
  stockRand := fun _ => 0
  custChoice := fun _ => 0
  prodChoice := fun _ => 0
  quantityRand := fun _ => 0
  uuid := fun _ => "00000000-0000-0000-0000-000000000000"
  txnChoice := fun _ => 0
  orderDate := fun _ => "2025-01-01 00:00:00"
  shippingAddress := fun _ => "2 Shipping Road"
  statusChoice := fun _ => 0
  fallbackCity := fun _ => "Fallback City"

/-! ### The claims -/

/-- C1: every order row of `generate_fake_data` references a customer_id
from the generated customer table and a product_id from the generated
product table (referential integrity by construction, for positive
counts). -/
theorem claim_C1_referential_integrity (o : FakerOracle) (numC numP numO : ℕ)
    (hc : 0 < numC) (hp : 0 < numP) :
    ∀ a ∈ (generate_fake_data o numC numP numO).orders,
      a.customer_id ∈ customerIdList (generate_fake_data o numC numP numO).customers ∧
      a.product_id ∈ (generate_fake_data o numC numP numO).products.map
        (fun p => p.product_id) := by
  intro a ha
  rw [generate_fake_data_orders] at ha
  rw [generate_fake_data_customers, generate_fake_data_products]
  obtain ⟨i, hi, rfl⟩ := mem_genOrders.mp ha
  constructor
  · rw [orderAt_customer_id]
    exact pyChoice_mem (customerIdList_ne_nil hc) _
  · rw [orderAt_product_id, ← productDetails_keys]
    refine pyChoice_mem ?_ _
    intro hnil
    have hlen := congrArg List.length (productDetails_keys o numP)
    rw [hnil] at hlen
    simp [genProducts] at hlen
    omega

/-- C1 witness: the single order of a (1 customer, 1 product, 1 order) run
references the generated customer and product. -/
theorem claim_C1_witness :
    ((generate_fake_data sampleOracle 1 1 1).orders.getD 0 default).customer_id
      ∈ customerIdList (generate_fake_data sampleOracle 1 1 1).customers ∧
    ((generate_fake_data sampleOracle 1 1 1).orders.getD 0 default).product_id
      ∈ (generate_fake_data sampleOracle 1 1 1).products.map (fun p => p.product_id) :=
  claim_C1_referential_integrity sampleOracle 1 1 1 (by norm_num) (by norm_num)
    ((generate_fake_data sampleOracle 1 1 1).orders.getD 0 default)
    (getD_zero_mem (by rw [generate_fake_data_orders, genOrders_length]; norm_num))

/-- C2: every order row's amount is the 2-decimal rounding of
unit_price_at_order times quantity. -/
theorem claim_C2_amount (o : FakerOracle) (numC numP numO : ℕ) :
    ∀ a ∈ (generate_fake_data o numC numP numO).orders,
      a.amount = pyRound2 (a.unit_price_at_order * (a.quantity : ℚ)) := by
  intro a ha
  rw [generate_fake_data_orders] at ha
  obtain ⟨i, hi, rfl⟩ := mem_genOrders.mp ha
  exact orderAt_amount o _ _ i

/-- C2 witness: the amount equation at the single order of a (1, 1, 1) run. -/
theorem claim_C2_witness :
    ((generate_fake_data sampleOracle 1 1 1).orders.getD 0 default).amount
      = pyRound2 (((generate_fake_data sampleOracle 1 1 1).orders.getD 0 default).unit_price_at_order
          * (((generate_fake_data sampleOracle 1 1 1).orders.getD 0 default).quantity : ℚ)) :=
  claim_C2_amount sampleOracle 1 1 1
    ((generate_fake_data sampleOracle 1 1 1).orders.getD 0 default)
    (getD_zero_mem (by rw [generate_fake_data_orders, genOrders_length]; norm_num))

/-- C3: every order row's unit_price_at_order is the price of the generated
product row whose product_id it references (a snapshot off the completed
product table). -/
theorem claim_C3_price_snapshot (o : FakerOracle) (numC numP numO : ℕ) :
    ∀ a ∈ (generate_fake_data o numC numP numO).orders,
      ∀ p ∈ (generate_fake_data o numC numP numO).products,
        p.product_id = a.product_id → a.unit_price_at_order = p.price := by
  intro a ha p hp hid
  rw [generate_fake_data_orders] at ha
  rw [generate_fake_data_products] at hp
  obtain ⟨i, hi, rfl⟩ := mem_genOrders.mp ha
  rw [orderAt_unit_price, ← hid]
  have hmem : (p.product_id, p.price)
      ∈ (genProducts o numP).map (fun q => (q.product_id, q.price)) :=
    List.mem_map.mpr ⟨p, hp, rfl⟩
  have hlook : pyDictLookup (productDetails (genProducts o numP)) p.product_id
      = some p.price := by
    rw [productDetails_eq]
    refine pyDictLookup_eq_some_of_mem ?_ hmem
    rw [List.map_map]
    exact genProducts_ids_nodup o numP
  rw [hlook]
  rfl

/-- C3 witness: at a (1, 1, 1) run, the single order's unit price is the
single product's price. -/
theorem claim_C3_witness :
    ((generate_fake_data sampleOracle 1 1 1).orders.getD 0 default).unit_price_at_order
      = ((generate_fake_data sampleOracle 1 1 1).products.getD 0 default).price :=
  claim_C3_price_snapshot sampleOracle 1 1 1
    ((generate_fake_data sampleOracle 1 1 1).orders.getD 0 default)
    (getD_zero_mem (by rw [generate_fake_data_orders, genOrders_length]; norm_num))
    ((generate_fake_data sampleOracle 1 1 1).products.getD 0 default)
    (getD_zero_mem (by rw [generate_fake_data_products, genProducts_length]; norm_num))
    (by rw [generate_fake_data_orders, generate_fake_data_products]
        rfl)

/-- C4: every order row's location is the city of the generated customer row
it references, and the customer lookup never misses (the fallback branch of
line 91 is dead for orders generated by the script). -/
theorem claim_C4_location (o : FakerOracle) (numC numP numO : ℕ) (hc : 0 < numC) :
    ∀ a ∈ (generate_fake_data o numC numP numO).orders,
      (pyDictLookup (customerLocations (generate_fake_data o numC numP numO).customers)
          a.customer_id).isSome = true ∧
      ∃ c ∈ (generate_fake_data o numC numP numO).customers,
        c.customer_id = a.customer_id ∧ a.location = c.city := by
  intro a ha
  rw [generate_fake_data_orders] at ha
  rw [generate_fake_data_customers]
  obtain ⟨i, hi, rfl⟩ := mem_genOrders.mp ha
  have hcid : (orderAt o (genCustomers o numC) (genProducts o numP) i).customer_id
      ∈ customerIdList (genCustomers o numC) := by
    rw [orderAt_customer_id]
    exact pyChoice_mem (customerIdList_ne_nil hc) _
  have hsome : (pyDictLookup (customerLocations (genCustomers o numC))
      (orderAt o (genCustomers o numC) (genProducts o numP) i).customer_id).isSome = true :=
    pyDictLookup_isSome_of_mem_keys ((customerLocations_keys o numC).symm ▸ hcid)
  obtain ⟨v, hv⟩ := Option.isSome_iff_exists.mp hsome
  have hmem := pyDictLookup_mem hv
  rw [customerLocations_eq] at hmem
  obtain ⟨c, hcmem, hpair⟩ := List.mem_map.mp hmem
  injection hpair with h1 h2
  refine ⟨hsome, c, hcmem, h1, ?_⟩
  rw [orderAt_location, hv]
  exact h2.symm

/-- C4 witness: at a (1, 1, 1) run, the single order's customer lookup hits
and its location is that customer's city. -/
theorem claim_C4_witness :
    (pyDictLookup (customerLocations (generate_fake_data sampleOracle 1 1 1).customers)
        ((generate_fake_data sampleOracle 1 1 1).orders.getD 0 default).customer_id).isSome
      = true ∧
    ∃ c ∈ (generate_fake_data sampleOracle 1 1 1).customers,
      c.customer_id
          = ((generate_fake_data sampleOracle 1 1 1).orders.getD 0 default).customer_id ∧
      ((generate_fake_data sampleOracle 1 1 1).orders.getD 0 default).location = c.city :=
  claim_C4_location sampleOracle 1 1 1 (by norm_num)
    ((generate_fake_data sampleOracle 1 1 1).orders.getD 0 default)
    (getD_zero_mem (by rw [generate_fake_data_orders, genOrders_length]; norm_num))

/-- C5 (the code contradicts the claim): at the module's default
configuration, `upload_to_gcs` does not resolve to Application Default
Credentials.  The constant `GCS_SERVICE_ACCOUNT_KEY_PATH` is the truthy
string `"None"`, so the `if service_account_key_path:` test passes and the
service-account-file branch is entered with `"None"` as the path. -/
theorem claim_C5_default_config_not_adc :
    genaratorAuthMethod = AuthMethod.serviceAccountFile "None" ∧
    genaratorAuthMethod ≠ AuthMethod.applicationDefault := by
  constructor <;> decide

/-- C6: errors raised by the upload step never escape `genarator`: when
generation and saving succeed and the upload raises, `genarator` returns
normally having printed the two explanatory lines; and any error `genarator`
does propagate came from generation or from saving, never from the upload. -/
theorem claim_C6_upload_errors_swallowed (genResult : Except String Tables)
    (saveResult : Tables → Except String Unit)
    (uploadResult : Tables → Except String Unit) :
    (∀ tables e, genResult = Except.ok tables → saveResult tables = Except.ok () →
        uploadResult tables = Except.error e →
        genarator genResult saveResult uploadResult
          = Except.ok (uploadErrorMessages e)) ∧
    (∀ e, genarator genResult saveResult uploadResult = Except.error e →
        genResult = Except.error e ∨
        ∃ tables, genResult = Except.ok tables ∧ saveResult tables = Except.error e) := by
  constructor
  · intro tables e hg hs hu
    subst hg
    simp [genarator, hs, hu]
  · intro e he
    cases hg : genResult with
    | error e₀ =>
      left
      rw [hg] at he
      simp only [genarator] at he
      injection he with h
      rw [h]
    | ok tables =>
      right
      refine ⟨tables, rfl, ?_⟩
      rw [hg] at he
      cases hs : saveResult tables with
      | error e₀ =>
        simp only [genarator, hs] at he
        injection he with h
        rw [← h]
      | ok u =>
        exfalso
        cases u
        cases hu : uploadResult tables with
        | ok v => simp [genarator, hs, hu] at he
        | error e₁ => simp [genarator, hs, hu] at he

/-- C7: every generated product's price lies in the closed interval
[5, 500] and is an integer number of hundredths (at most 2 decimal digits),
for uniform draws inside [5, 500] — the range `random.uniform(5.0, 500.0)`
guarantees. -/
theorem claim_C7_price_range (o : FakerOracle) (numC numP numO : ℕ)
    (hu : ∀ i, 5 ≤ o.priceUniform i ∧ o.priceUniform i ≤ 500) :
    ∀ p ∈ (generate_fake_data o numC numP numO).products,
      5 ≤ p.price ∧ p.price ≤ 500 ∧ ∃ z : ℤ, p.price * 100 = (z : ℚ) := by
  intro p hp
  rw [generate_fake_data_products] at hp
  simp only [genProducts, List.mem_map, List.mem_range] at hp
  obtain ⟨i, hi, rfl⟩ := hp
  have hb := pyRound2_bounds (hu i).1 (hu i).2
  exact ⟨hb.1, hb.2, pyRound2_two_decimals _⟩

/-- C7 witness: the price of the single product of a (1, 1, 1) run with
uniform draw 42. -/
theorem claim_C7_witness :
    5 ≤ ((generate_fake_data sampleOracle 1 1 1).products.getD 0 default).price ∧
    ((generate_fake_data sampleOracle 1 1 1).products.getD 0 default).price ≤ 500 ∧
    ∃ z : ℤ,
      ((generate_fake_data sampleOracle 1 1 1).products.getD 0 default).price * 100
        = (z : ℚ) :=
  claim_C7_price_range sampleOracle 1 1 1
    (fun i => by constructor <;> norm_num [sampleOracle])
    ((generate_fake_data sampleOracle 1 1 1).products.getD 0 default)
    (getD_zero_mem (by rw [generate_fake_data_products, genProducts_length]; norm_num))

/-- C8: the i-th generated customer (0-based index i, 1-based sequence
number i+1) has customer_id `"CUST"` followed by i+1 zero-padded to 5
digits, and the customer_id values are pairwise distinct for every count. -/
theorem claim_C8_customer_id_format (o : FakerOracle) (numC numP numO : ℕ) :
    (∀ i, i < numC →
      ((generate_fake_data o numC numP numO).customers.map
          (fun c => c.customer_id)).getD i ""
        = "CUST" ++ zfill 5 (pyNatStr (i + 1))) ∧
    ((generate_fake_data o numC numP numO).customers.map
        (fun c => c.customer_id)).Nodup := by
  rw [generate_fake_data_customers]
  constructor
  · intro i hi
    have hlen : i < ((genCustomers o numC).map fun c => c.customer_id).length := by
      simp [genCustomers, hi]
    rw [List.getD_eq_getElem _ _ hlen]
    simp [genCustomers, idStr]
  · exact genCustomers_ids_nodup o numC

/-- C9: the exporter writes exactly the three fixed filenames, each holding
one header line of field names plus one line per row (so 1 + C, 1 + P,
1 + O lines), overwrites whatever the directory held under those names, and
touches no other file. -/
theorem claim_C9_exporter (renderRat : ℚ → String) (renderNat : ℕ → String)
    (fs : FileSys) (cs : List Customer) (ps : List Product) (ords : List Order) :
    pyDictLookup (save_data_to_csv renderRat renderNat fs cs ps ords) "customers.csv"
        = some (customerFields :: cs.map customerRecord) ∧
    pyDictLookup (save_data_to_csv renderRat renderNat fs cs ps ords) "products.csv"
        = some (productFields :: ps.map (productRecord renderRat renderNat)) ∧
    pyDictLookup (save_data_to_csv renderRat renderNat fs cs ps ords) "orders.csv"
        = some (orderFields :: ords.map (orderRecord renderRat renderNat)) ∧
    (customerFields :: cs.map customerRecord).length = 1 + cs.length ∧
    (productFields :: ps.map (productRecord renderRat renderNat)).length
        = 1 + ps.length ∧
    (orderFields :: ords.map (orderRecord renderRat renderNat)).length
        = 1 + ords.length ∧
    ∀ other : String, other ≠ "customers.csv" → other ≠ "products.csv" →
      other ≠ "orders.csv" →
      pyDictLookup (save_data_to_csv renderRat renderNat fs cs ps ords) other
        = pyDictLookup fs other := by
  unfold save_data_to_csv customersCsv productsCsv ordersCsv
  refine ⟨?_, ?_, ?_, by simp [Nat.add_comm], by simp [Nat.add_comm],
    by simp [Nat.add_comm], ?_⟩
  · rw [pyDictLookup_pyDictInsert_ne _ _ (by decide),
      pyDictLookup_pyDictInsert_ne _ _ (by decide),
      pyDictLookup_pyDictInsert_self]
  · rw [pyDictLookup_pyDictInsert_ne _ _ (by decide),
      pyDictLookup_pyDictInsert_self]
  · rw [pyDictLookup_pyDictInsert_self]
  · intro other h1 h2 h3
    rw [pyDictLookup_pyDictInsert_ne _ _ (Ne.symm h3),
      pyDictLookup_pyDictInsert_ne _ _ (Ne.symm h2),
      pyDictLookup_pyDictInsert_ne _ _ (Ne.symm h1)]

/-- C10: `upload_to_gcs` picks its authentication branch by the Python
truthiness of `service_account_key_path` (any non-empty string counts as a
provided credential file), the module default is the truthy literal string
`"None"`, and the top-level `genarator` call therefore enters the
service-account-file branch and never the Application Default Credentials
branch. -/
theorem claim_C10_truthiness_branch :
    (∀ k : Option String,
        (∃ p, authMethod k = AuthMethod.serviceAccountFile p)
          ↔ pyTruthyOptStr k = true) ∧
    GCS_SERVICE_ACCOUNT_KEY_PATH = some "None" ∧
    authMethod GCS_SERVICE_ACCOUNT_KEY_PATH = AuthMethod.serviceAccountFile "None" ∧
    genaratorAuthMethod ≠ AuthMethod.applicationDefault := by
  refine ⟨?_, rfl, by decide, by decide⟩
  intro k
  cases k with
  | none => simp [authMethod, pyTruthyOptStr]
  | some s =>
    by_cases hs : s.isEmpty
    · simp [authMethod, pyTruthyOptStr, hs]
    · simp [authMethod, pyTruthyOptStr, hs]

end ExtractGenarator
